import Mathlib

/-!
Verification of the Home-Assistant voice bridge (`bridge.py`) and its entity
discovery utility (`discover_entities.py`).

The Python code is shallowly embedded: each handler becomes a Lean function
that returns the list of observable effects it performs (log lines, the LLM
HTTP query, Home-Assistant service calls, MQTT publishes) together with an
`Option` result where `none` models a raised Python exception.  External
services (the LLM endpoint, Python's `json.loads` on LLM replies, and the
Home-Assistant REST API) are uninterpreted functions collected in an
environment record, since their code is third-party.  String reprs of Python
dicts/exceptions inside log messages are elided (the log text keeps the
fixed prefix of the corresponding f-string); every branch and every emitted
effect follows the source line by line.
-/

/-- Python `s.startswith(p)` on strings. -/
def py_startswith (s p : String) : Bool := p.data.isPrefixOf s.data

/-- Python `s.endswith(p)` on strings. -/
def py_endswith (s p : String) : Bool := p.data.isSuffixOf s.data

/-- Python `str(x)` for an optional string (`None` prints as "None"),
as interpolated into f-string log messages. -/
def py_str_opt : Option String → String
  | none => "None"
  | some s => s

/-- `Config.TOPIC_ASR` in `bridge.py`. -/
def TOPIC_ASR : String := "hermes/asr/textCaptured"

/-- `Config.TOPIC_TTS` in `bridge.py`. -/
def TOPIC_TTS : String := "hermes/tts/say"

/-- `Config.TOPIC_HOTWORD` in `bridge.py`. -/
def TOPIC_HOTWORD : String := "hermes/hotword/detected"

/-- One entity record of the catalog (`entity_info` in
`discover_entities.py` / the dicts stored in `ha_entities.json`). -/
structure EntityInfo where
  entity_id : String
  friendly_name : String
  state : String
deriving DecidableEq

/-- The entity catalog: the ten-key mapping produced by
`categorize_entities` and consumed by the bridge (`self.entities`). -/
structure Categories where
  lights : List EntityInfo := []
  switches : List EntityInfo := []
  climate : List EntityInfo := []
  fans : List EntityInfo := []
  automations : List EntityInfo := []
  scripts : List EntityInfo := []
  media_players : List EntityInfo := []
  covers : List EntityInfo := []
  sensors : List EntityInfo := []
  other : List EntityInfo := []
deriving DecidableEq

/-- `get_default_entities` in `bridge.py`: the all-empty fallback catalog. -/
def get_default_entities : Categories :=
  { lights := [], switches := [], climate := [], fans := [], automations := [],
    scripts := [], media_players := [], covers := [], sensors := [], other := [] }

/-- `load_entities` in `bridge.py`.  The input is the parsed content of
`ha_entities.json`; `none` covers both a missing file and a JSON decode
error, which the source handles identically by falling back to
`get_default_entities`. -/
def load_entities (entities_file : Option Categories) : Categories :=
  match entities_file with
  | some entities => entities
  | none => get_default_entities

/-- `generate_entity_list` in `bridge.py`: one "- id (name)" line per entity
of the six controllable categories, joined with newlines. -/
def generate_entity_list (entities : Categories) : String :=
  let entity_lines : List String :=
    (entities.lights.map (fun light => "- " ++ light.entity_id ++ " (" ++ light.friendly_name ++ ")"))
    ++ (entities.switches.map (fun switch => "- " ++ switch.entity_id ++ " (" ++ switch.friendly_name ++ ")"))
    ++ (entities.climate.map (fun climate => "- " ++ climate.entity_id ++ " (" ++ climate.friendly_name ++ ")"))
    ++ (entities.fans.map (fun fan => "- " ++ fan.entity_id ++ " (" ++ fan.friendly_name ++ ")"))
    ++ (entities.automations.map (fun automation => "- " ++ automation.entity_id ++ " (" ++ automation.friendly_name ++ ")"))
    ++ (entities.scripts.map (fun script => "- " ++ script.entity_id ++ " (" ++ script.friendly_name ++ ")"))
  String.intercalate "\n" entity_lines

/-- The `service_data` dict sent to `call_ha_service`: only the keys the
bridge ever sets (`entity_id`, `brightness`, `temperature`, `hvac_mode`);
an absent key is `none`. -/
structure ServiceData where
  entity_id : Option String := none
  brightness : Option Int := none
  temperature : Option Int := none
  hvac_mode : Option String := none
deriving DecidableEq

/-- The JSON payload published on the TTS topic by `send_tts_response`. -/
structure TtsPayload where
  text : String
  siteId : String
  sessionId : String
deriving DecidableEq

/-- Observable effects of the bridge: log lines, the HTTP POST to the LLM
(`llmQuery` carries the generated entity list and the user text), the HTTP
POST of a Home-Assistant service call, and an MQTT publish. -/
inductive Effect where
  | logInfo (msg : String)
  | logWarn (msg : String)
  | logError (msg : String)
  | llmQuery (entity_list user_text : String)
  | haCall (domain service : String) (data : ServiceData)
  | publish (topic : String) (payload : TtsPayload)
deriving DecidableEq

/-- Whether an effect is a pure log line (no network or bus traffic). -/
def Effect.isLog : Effect → Bool
  | .logInfo _ => true
  | .logWarn _ => true
  | .logError _ => true
  | _ => false

/-- Whether an effect is the HTTP query to the LLM endpoint. -/
def Effect.isLlmQuery : Effect → Bool
  | .llmQuery _ _ => true
  | _ => false

/-- Result of running a piece of handler code: the effects it performed, and
`some` value on normal return or `none` when it raised. Effects emitted
before a raise are kept, as in Python. -/
structure EStep (α : Type) where
  effects : List Effect
  result : Option α

/-- The `parameters` dict of one LLM function call: only the keys the
control functions ever read. -/
structure Params where
  entity_id : Option String := none
  action : Option String := none
  brightness : Option Int := none
  temperature : Option Int := none
  mode : Option String := none
  text : Option String := none
  time : Option String := none
deriving DecidableEq

/-- One entry of the LLM reply's "functions" list. -/
structure FuncCall where
  name : Option String := none
  parameters : Params := {}
deriving DecidableEq

/-- The result of `json.loads` on an LLM reply, projected to the two keys
`process_llm_response` reads: `speech` (absent ↦ `none`) and `functions`
(absent ↦ `[]`, matching `parsed.get("functions", [])`). -/
structure Parsed where
  speech : Option String := none
  functions : List FuncCall := []
deriving DecidableEq

/-- A decoded incoming MQTT JSON payload, projected to the keys the
handlers read (`text`, `sessionId`, `modelId`); an absent key is `none`. -/
structure Payload where
  text : Option String := none
  sessionId : Option String := none
  modelId : Option String := none
deriving DecidableEq

/-- An incoming MQTT message: its topic and its decoded payload, where
`none` models `message.payload.decode()` / `json.loads` raising. -/
structure MqttMsg where
  topic : String
  payload : Option Payload
deriving DecidableEq

/-- The external services the bridge talks to, as uninterpreted functions:
`llm t` is the LLM reply text for user text `t` (`none` = the HTTP request
or its JSON decoding raised), `jsonLoads s` is Python `json.loads s`
projected to `Parsed` (`none` = `json.JSONDecodeError`), and
`haOk d s data` says whether the Home-Assistant service call succeeds
(`false` = `raise_for_status` raised). -/
structure Env where
  llm : String → Option String
  jsonLoads : String → Option Parsed
  haOk : String → String → ServiceData → Bool

/-- `call_ha_service` in `bridge.py`: log, POST the service call, then
`raise_for_status` (modelled by `env.haOk`); on success a final log. -/
def call_ha_service (env : Env) (domain service : String) (service_data : ServiceData) : EStep Unit :=
  let pre := [Effect.logInfo ("Calling HA service: " ++ domain ++ "." ++ service),
              Effect.haCall domain service service_data]
  if env.haOk domain service service_data then
    ⟨pre ++ [Effect.logInfo "HA service call successful"], some ()⟩
  else
    ⟨pre, none⟩

/-- `control_light` in `bridge.py`.  For `turn_on`, a supplied brightness
percent is converted with `int(brightness * 255 / 100)`; Python's `int`
truncates toward zero, which is `Int.tdiv`. -/
def control_light (env : Env) (params : Params) : EStep Unit :=
  if params.action = some "turn_on" then
    call_ha_service env "light" "turn_on"
      { entity_id := params.entity_id,
        brightness := params.brightness.map (fun brightness => Int.tdiv (brightness * 255) 100) }
  else if params.action = some "turn_off" then
    call_ha_service env "light" "turn_off" { entity_id := params.entity_id }
  else if params.action = some "toggle" then
    call_ha_service env "light" "toggle" { entity_id := params.entity_id }
  else ⟨[], some ()⟩

/-- `control_switch` in `bridge.py`. -/
def control_switch (env : Env) (params : Params) : EStep Unit :=
  match params.action with
  | some action =>
    if action = "turn_on" ∨ action = "turn_off" ∨ action = "toggle" then
      call_ha_service env "switch" action { entity_id := params.entity_id }
    else ⟨[], some ()⟩
  | none => ⟨[], some ()⟩

/-- `control_climate` in `bridge.py`.  `if temperature:` and `if mode:` are
Python truthiness tests: `None`, `0` and `""` all skip the key. -/
def control_climate (env : Env) (params : Params) : EStep Unit :=
  let sd0 : ServiceData := { entity_id := params.entity_id }
  let sd1 := match params.temperature with
    | some temperature => if temperature ≠ 0 then { sd0 with temperature := some temperature } else sd0
    | none => sd0
  let sd2 := match params.mode with
    | some mode => if mode ≠ "" then { sd1 with hvac_mode := some mode } else sd1
    | none => sd1
  call_ha_service env "climate" "set_temperature" sd2

/-- `create_reminder` in `bridge.py`: only logs; no service call is made. -/
def create_reminder (params : Params) : EStep Unit :=
  ⟨[Effect.logInfo ("Creating reminder: " ++ py_str_opt params.text ++ " at " ++ py_str_opt params.time)],
   some ()⟩

/-- `control_automation` in `bridge.py` (action defaults to "trigger"). -/
def control_automation (env : Env) (params : Params) : EStep Unit :=
  let action := params.action.getD "trigger"
  if action = "trigger" then
    call_ha_service env "automation" "trigger" { entity_id := params.entity_id }
  else if action = "turn_on" then
    call_ha_service env "automation" "turn_on" { entity_id := params.entity_id }
  else if action = "turn_off" then
    call_ha_service env "automation" "turn_off" { entity_id := params.entity_id }
  else if action = "toggle" then
    call_ha_service env "automation" "toggle" { entity_id := params.entity_id }
  else ⟨[], some ()⟩

/-- `control_script` in `bridge.py` (action defaults to "run"). -/
def control_script (env : Env) (params : Params) : EStep Unit :=
  let action := params.action.getD "run"
  if action = "run" ∨ action = "turn_on" then
    call_ha_service env "script" "turn_on" { entity_id := params.entity_id }
  else if action = "turn_off" then
    call_ha_service env "script" "turn_off" { entity_id := params.entity_id }
  else if action = "toggle" then
    call_ha_service env "script" "toggle" { entity_id := params.entity_id }
  else ⟨[], some ()⟩

/-- The six function names `execute_ha_function` dispatches on. -/
def known_function_names : List String :=
  ["light_control", "switch_control", "climate_control", "create_reminder",
   "automation_control", "script_control"]

/-- `execute_ha_function` in `bridge.py`: log, dispatch on the function
name (an unknown or missing name only logs a warning), and catch any
exception of the dispatched call, so the function always returns
normally. -/
def execute_ha_function (env : Env) (function_call : FuncCall) : EStep Unit :=
  let pre := [Effect.logInfo ("Executing HA function: " ++ py_str_opt function_call.name)]
  let body : EStep Unit :=
    if function_call.name = some "light_control" then control_light env function_call.parameters
    else if function_call.name = some "switch_control" then control_switch env function_call.parameters
    else if function_call.name = some "climate_control" then control_climate env function_call.parameters
    else if function_call.name = some "create_reminder" then create_reminder function_call.parameters
    else if function_call.name = some "automation_control" then control_automation env function_call.parameters
    else if function_call.name = some "script_control" then control_script env function_call.parameters
    else ⟨[Effect.logWarn ("Unknown function: " ++ py_str_opt function_call.name)], some ()⟩
  let caught : List Effect :=
    match body.result with
    | some _ => []
    | none => [Effect.logError ("Error executing HA function " ++ py_str_opt function_call.name)]
  ⟨pre ++ body.effects ++ caught, some ()⟩

/-- `send_tts_response` in `bridge.py`: log, then publish the TTS payload. -/
def send_tts_response (text : String) (session_id : String) : EStep Unit :=
  ⟨[Effect.logInfo ("Sending TTS response: " ++ text),
    Effect.publish TOPIC_TTS { text := text, siteId := "default", sessionId := session_id }],
   some ()⟩

/-- The `for func in functions:` loop of `process_llm_response`: run each
call in order; a raise stops the loop and propagates (effects already
performed are kept). -/
def execute_functions_loop (env : Env) : List FuncCall → EStep Unit
  | [] => ⟨[], some ()⟩
  | func :: rest =>
    let s := execute_ha_function env func
    match s.result with
    | none => ⟨s.effects, none⟩
    | some _ =>
      let r := execute_functions_loop env rest
      ⟨s.effects ++ r.effects, r.result⟩

/-- `process_llm_response` in `bridge.py`.  `response_text` is
`llm_response.get("response", "")`.  The brace test guards the
`json.loads`; a `JSONDecodeError` (`env.jsonLoads ... = none`) falls back
to publishing the raw text, which is what the `except` clause catches. -/
def process_llm_response (env : Env) (response_text : String) (session_id : String) : EStep Unit :=
  if py_startswith response_text "\x7b" && py_endswith response_text "\x7d" then
    match env.jsonLoads response_text with
    | some parsed =>
      let speech_response := parsed.speech.getD response_text
      let loop := execute_functions_loop env parsed.functions
      match loop.result with
      | none => ⟨loop.effects, none⟩
      | some _ =>
        let tts := send_tts_response speech_response session_id
        ⟨loop.effects ++ tts.effects, tts.result⟩
    | none => send_tts_response response_text session_id
  else
    send_tts_response response_text session_id

/-- `query_llm` in `bridge.py`: builds the system prompt from
`generate_entity_list`, logs, POSTs to the LLM (the `llmQuery` effect) and
returns the reply text; `env.llm ... = none` models the request or its
JSON decoding raising.  The prompt prose itself is elided: it reaches no
effect other than the `llmQuery` POST, which carries the entity list. -/
def query_llm (env : Env) (entities : Categories) (user_text : String) : EStep String :=
  let entity_list := generate_entity_list entities
  let pre := [Effect.logInfo ("Sending to LLM: " ++ user_text),
              Effect.llmQuery entity_list user_text]
  match env.llm user_text with
  | none => ⟨pre, none⟩
  | some llm_text => ⟨pre ++ [Effect.logInfo ("LLM response: " ++ llm_text)], some llm_text⟩

/-- `handle_voice_input` in `bridge.py`: empty or "[unk]" text gets the
fixed re-prompt; otherwise the text goes to the LLM and any exception from
`query_llm`/`process_llm_response` is caught and answered with the fixed
fallback message. -/
def handle_voice_input (env : Env) (entities : Categories) (payload : Payload) : EStep Unit :=
  let user_text := payload.text.getD ""
  let session_id := payload.sessionId.getD "default"
  let pre := [Effect.logInfo ("Processing voice input: \x27" ++ user_text ++ "\x27")]
  if user_text = "" ∨ user_text = "[unk]" then
    ⟨pre ++ (send_tts_response "I didn\x27t catch that. Could you please repeat?" session_id).effects,
     some ()⟩
  else
    let q := query_llm env entities user_text
    let tryBody : EStep Unit :=
      match q.result with
      | none => ⟨q.effects, none⟩
      | some llm_text =>
        let pr := process_llm_response env llm_text session_id
        ⟨q.effects ++ pr.effects, pr.result⟩
    let caught : List Effect :=
      match tryBody.result with
      | some _ => []
      | none => Effect.logError "Error processing with LLM" ::
          (send_tts_response "Sorry, I\x27m having trouble processing that request." session_id).effects
    ⟨pre ++ tryBody.effects ++ caught, some ()⟩

/-- `handle_hotword` in `bridge.py`: log only. -/
def handle_hotword (payload : Payload) : EStep Unit :=
  ⟨[Effect.logInfo ("Wake word detected: " ++ payload.modelId.getD "unknown")], some ()⟩

/-- `on_mqtt_message` in `bridge.py`: decode the payload, dispatch on the
topic, and catch every exception (decode failure included), so the
callback always returns normally. -/
def on_mqtt_message (env : Env) (entities : Categories) (message : MqttMsg) : EStep Unit :=
  match message.payload with
  | none => ⟨[Effect.logError "Error processing MQTT message"], some ()⟩
  | some payload =>
    let body : EStep Unit :=
      if message.topic = TOPIC_ASR then handle_voice_input env entities payload
      else if message.topic = TOPIC_HOTWORD then handle_hotword payload
      else ⟨[], some ()⟩
    let caught : List Effect :=
      match body.result with
      | some _ => []
      | none => [Effect.logError "Error processing MQTT message"]
    ⟨Effect.logInfo ("Received MQTT message on " ++ message.topic) :: body.effects ++ caught, some ()⟩

/-- The bridge's cross-message state: only the entity catalog
(`self.entities`). -/
structure BridgeState where
  entities : Categories
deriving DecidableEq

/-- One message-loop iteration: `on_mqtt_message` reads `self.entities`
and performs effects; no handler assigns to `self.entities`, so the state
component is returned unchanged. -/
def bridge_handle_message (env : Env) (st : BridgeState) (message : MqttMsg) :
    BridgeState × EStep Unit :=
  (st, on_mqtt_message env st.entities message)

/-- The `loop_forever` callback loop: handle each message in order,
threading the bridge state. -/
def run_messages (env : Env) (st : BridgeState) : List MqttMsg → BridgeState
  | [] => st
  | message :: rest => run_messages env (bridge_handle_message env st message).1 rest

/-- A raw entity from the Home-Assistant `/api/states` endpoint, projected
to the fields `categorize_entities` reads: `entity_id`, `state`, and
`attributes.get("friendly_name")` (`none` when absent). -/
structure RawEntity where
  entity_id : String
  friendly_name : Option String := none
  state : String
deriving DecidableEq

/-- The `entity_info` dict built for each raw entity: the friendly name
defaults to the entity id. -/
def mk_entity_info (entity : RawEntity) : EntityInfo :=
  { entity_id := entity.entity_id,
    friendly_name := entity.friendly_name.getD entity.entity_id,
    state := entity.state }

/-- Python `entity_id.split(".")[0]`: the prefix of the string before the
first dot (the whole string when it has no dot). -/
def domain_of (entity_id : String) : String :=
  ⟨entity_id.data.takeWhile (fun c => c != '.')⟩

/-- One iteration of the `for entity in entities:` loop of
`categorize_entities`: append the entity's record to the category selected
by its domain. -/
def categorize_step (categories : Categories) (entity : RawEntity) : Categories :=
  let domain := domain_of entity.entity_id
  let entity_info := mk_entity_info entity
  if domain = "light" then { categories with lights := categories.lights ++ [entity_info] }
  else if domain = "switch" then { categories with switches := categories.switches ++ [entity_info] }
  else if domain = "climate" then { categories with climate := categories.climate ++ [entity_info] }
  else if domain = "fan" then { categories with fans := categories.fans ++ [entity_info] }
  else if domain = "automation" then { categories with automations := categories.automations ++ [entity_info] }
  else if domain = "script" then { categories with scripts := categories.scripts ++ [entity_info] }
  else if domain = "media_player" then { categories with media_players := categories.media_players ++ [entity_info] }
  else if domain = "cover" then { categories with covers := categories.covers ++ [entity_info] }
  else if domain = "sensor" ∨ domain = "binary_sensor" then { categories with sensors := categories.sensors ++ [entity_info] }
  else { categories with other := categories.other ++ [entity_info] }

/-- `categorize_entities` in `discover_entities.py`. -/
def categorize_entities (entities : List RawEntity) : Categories :=
  entities.foldl categorize_step
    { lights := [], switches := [], climate := [], fans := [], automations := [],
      scripts := [], media_players := [], covers := [], sensors := [], other := [] }

/-- `generate_system_prompt` in `discover_entities.py`. -/
def generate_system_prompt (categories : Categories) : String :=
  let prompt_entities : List String :=
    (categories.lights.map (fun light => "- " ++ light.entity_id ++ " (" ++ light.friendly_name ++ ")"))
    ++ (categories.switches.map (fun switch => "- " ++ switch.entity_id ++ " (" ++ switch.friendly_name ++ ")"))
    ++ (categories.climate.map (fun climate => "- " ++ climate.entity_id ++ " (" ++ climate.friendly_name ++ ")"))
    ++ (categories.fans.map (fun fan => "- " ++ fan.entity_id ++ " (" ++ fan.friendly_name ++ ")"))
    ++ (categories.automations.map (fun automation => "- " ++ automation.entity_id ++ " (" ++ automation.friendly_name ++ ")"))
    ++ (categories.scripts.map (fun script => "- " ++ script.entity_id ++ " (" ++ script.friendly_name ++ ")"))
  String.intercalate "\n" prompt_entities

/-- The discovery utility's external world: the two environment variables
(`none` = unset) and the `/api/states` response (`none` = the GET request
or `raise_for_status` or `response.json()` raised). -/
structure DiscEnv where
  ha_host : Option String := none
  ha_token : Option String := none
  states : Option (List RawEntity) := none

/-- Observable effects of the discovery utility: console prints, the HTTP
GET, and the two file writes (the JSON snapshot keeps its structured
content; its serialization is `json.dump`'s). -/
inductive DiscEffect where
  | printMsg (msg : String)
  | httpGet (url : String)
  | writeJsonFile (path : String) (categories : Categories)
  | writeTextFile (path : String) (content : String)
deriving DecidableEq

/-- Whether a discovery effect writes a file. -/
def DiscEffect.isWrite : DiscEffect → Bool
  | .writeJsonFile _ _ => true
  | .writeTextFile _ _ => true
  | _ => false

/-- `discover_ha_entities` in `discover_entities.py`.  `if not ha_host or
not ha_token:` is Python truthiness: unset (`none`) and the empty string
both fail the check. -/
def discover_ha_entities (env : DiscEnv) : List DiscEffect × Option (List RawEntity) :=
  if env.ha_host.getD "" = "" ∨ env.ha_token.getD "" = "" then
    ([DiscEffect.printMsg "Please set HA_HOST and HA_TOKEN environment variables"], none)
  else
    let url := "http://" ++ env.ha_host.getD "" ++ ":8123/api/states"
    match env.states with
    | some states => ([DiscEffect.httpGet url], some states)
    | none => ([DiscEffect.httpGet url, DiscEffect.printMsg "Error fetching entities"], none)

/-- `main` in `discover_entities.py`.  `if not entities: return` skips the
rest for both a `None` result and an empty list; otherwise the JSON
snapshot is written, the counts are printed, and the text listing is
written. -/
def discovery_main (env : DiscEnv) : List DiscEffect :=
  let pre := [DiscEffect.printMsg "Discovering Home Assistant entities..."]
  let disc := discover_ha_entities env
  match disc.2 with
  | none => pre ++ disc.1
  | some entities =>
    if entities.isEmpty then pre ++ disc.1
    else
      let categories := categorize_entities entities
      let entity_list := generate_system_prompt categories
      pre ++ disc.1
        ++ [DiscEffect.writeJsonFile "ha_entities.json" categories]
        ++ [DiscEffect.printMsg ("Found " ++ toString entities.length ++ " total entities:"),
            DiscEffect.printMsg ("- Lights: " ++ toString categories.lights.length),
            DiscEffect.printMsg ("- Switches: " ++ toString categories.switches.length),
            DiscEffect.printMsg ("- Climate: " ++ toString categories.climate.length),
            DiscEffect.printMsg ("- Fans: " ++ toString categories.fans.length),
            DiscEffect.printMsg ("- Automations: " ++ toString categories.automations.length),
            DiscEffect.printMsg ("- Scripts: " ++ toString categories.scripts.length),
            DiscEffect.printMsg ("- Media Players: " ++ toString categories.media_players.length),
            DiscEffect.printMsg ("- Covers: " ++ toString categories.covers.length),
            DiscEffect.printMsg ("- Sensors: " ++ toString categories.sensors.length),
            DiscEffect.printMsg ("- Other: " ++ toString categories.other.length),
            DiscEffect.printMsg "Entity list saved to ha_entities.json",
            DiscEffect.printMsg "Generated system prompt saved to ha_entities.txt"]
        ++ [DiscEffect.writeTextFile "ha_entities.txt" ("Current available entities:\n" ++ entity_list)]

/-- The sum of the ten category list lengths of a catalog. -/
def cat_total (c : Categories) : Nat :=
  c.lights.length + c.switches.length + c.climate.length + c.fans.length
    + c.automations.length + c.scripts.length + c.media_players.length
    + c.covers.length + c.sensors.length + c.other.length

/-- A concrete environment for evaluation: the LLM request fails, LLM
replies never parse as JSON, and Home-Assistant calls succeed. -/
def env0 : Env :=
  { llm := fun _ => none, jsonLoads := fun _ => none, haOk := fun _ _ _ => true }

/-- A concrete parsed LLM reply with one light action. -/
def parsed0 : Parsed :=
  { speech := some "Turning on the living room lights",
    functions := [{ name := some "light_control",
                    parameters := { entity_id := some "light.living_room",
                                    action := some "turn_on", brightness := some 80 } }] }

/-- A concrete environment whose LLM replies all parse to `parsed0`. -/
def env1 : Env :=
  { llm := fun _ => some "ok", jsonLoads := fun _ => some parsed0, haOk := fun _ _ _ => true }

/-- A transcription message whose captured text is empty. -/
def msg_empty_text : MqttMsg :=
  { topic := TOPIC_ASR, payload := some { text := some "", sessionId := none, modelId := none } }

/-- A discovery environment with both variables unset. -/
def denv0 : DiscEnv := { ha_host := none, ha_token := none, states := none }

/-- The domains the `categorize_entities` elif chain recognizes; an entity
whose domain is none of these lands in the `other` bucket. -/
abbrev categorized_domain (domain : String) : Prop :=
  domain = "light" ∨ domain = "switch" ∨ domain = "climate" ∨ domain = "fan" ∨
  domain = "automation" ∨ domain = "script" ∨ domain = "media_player" ∨ domain = "cover" ∨
  domain = "sensor" ∨ domain = "binary_sensor"

/-! ## Helper lemmas -/

/-- `execute_ha_function` always returns normally: its `try/except`
swallows every exception of the dispatched call. -/
theorem execute_ha_function_result (env : Env) (function_call : FuncCall) :
    (execute_ha_function env function_call).result = some () := rfl

/-- Since each `execute_ha_function` returns normally, the function loop
runs every call and concatenates their effects in list order. -/
theorem execute_functions_loop_eq (env : Env) (fs : List FuncCall) :
    execute_functions_loop env fs =
      ⟨(fs.map (fun f => (execute_ha_function env f).effects)).flatten, some ()⟩ := by
  induction fs with
  | nil => rfl
  | cons f rest ih =>
    simp only [execute_functions_loop, execute_ha_function_result, ih, List.map_cons,
      List.flatten_cons]

/-- A handled message leaves the bridge state untouched. -/
theorem run_messages_fixed (env : Env) (messages : List MqttMsg) :
    ∀ st : BridgeState, run_messages env st messages = st := by
  induction messages with
  | nil => intro st; rfl
  | cons m rest ih => intro st; rw [run_messages]; exact ih st

/-! ## Claim theorems -/

/-- Claim C6: the entity catalog is fixed at startup by `load_entities`
and no amount of message handling changes it: after any sequence of
handled MQTT messages the bridge state still holds the startup catalog. -/
theorem entity_catalog_immutable (env : Env) (entities_file : Option Categories)
    (messages : List MqttMsg) :
    (run_messages env { entities := load_entities entities_file } messages).entities
      = load_entities entities_file := by
  rw [run_messages_fixed]

/-- Claim C9: for every entity catalog, the bridge's `generate_entity_list`
and the discovery utility's `generate_system_prompt` return the identical
string, namely one "- entity_id (friendly_name)" line per entity of the
lights, switches, climate, fans, automations and scripts categories in
that order, joined by newlines; the media_players, covers, sensors and
other categories do not contribute. -/
theorem prompt_generation_equivalent (categories : Categories) :
    generate_entity_list categories = generate_system_prompt categories ∧
    generate_entity_list categories =
      String.intercalate "\n"
        ((categories.lights ++ categories.switches ++ categories.climate ++ categories.fans
          ++ categories.automations ++ categories.scripts).map
          (fun e => "- " ++ e.entity_id ++ " (" ++ e.friendly_name ++ ")")) := by
  constructor
  · rfl
  · simp [generate_entity_list, List.map_append]

/-- Claim C10: a `light_control` `turn_on` action with a supplied
brightness percent `b` sends a `light.turn_on` service call whose data
carries `brightness = Int.tdiv (b * 255) 100` (Python's
`int(b * 255 / 100)`, truncating toward zero), a value in `0..255`
whenever `0 ≤ b ≤ 100`; with no brightness supplied the service data has
no brightness field. -/
theorem control_light_brightness (env : Env) (eid : String) (b : Int) :
    (Effect.haCall "light" "turn_on"
        { entity_id := some eid, brightness := some (Int.tdiv (b * 255) 100) }
      ∈ (control_light env
          { entity_id := some eid, action := some "turn_on", brightness := some b }).effects) ∧
    (0 ≤ b → b ≤ 100 →
      0 ≤ Int.tdiv (b * 255) 100 ∧ Int.tdiv (b * 255) 100 ≤ 255) ∧
    (Effect.haCall "light" "turn_on" { entity_id := some eid, brightness := none }
      ∈ (control_light env
          { entity_id := some eid, action := some "turn_on", brightness := none }).effects) := by
  refine ⟨?_, ?_, ?_⟩
  · unfold control_light
    rw [if_pos rfl]
    unfold call_ha_service
    split <;> simp
  · intro h0 h1
    rw [Int.tdiv_eq_ediv (by omega) (by omega)]
    omega
  · unfold control_light
    rw [if_pos rfl]
    unfold call_ha_service
    split <;> simp

/-- Witness for C10 at `b = 80`: the scaled brightness is 204 and the
service call is emitted. -/
theorem control_light_brightness_witness :
    ((0:Int) ≤ 80 ∧ (80:Int) ≤ 100) ∧
    (0 ≤ Int.tdiv ((80:Int) * 255) 100 ∧ Int.tdiv ((80:Int) * 255) 100 ≤ 255) ∧
    Effect.haCall "light" "turn_on"
        { entity_id := some "light.living_room", brightness := some (Int.tdiv ((80:Int) * 255) 100) }
      ∈ (control_light env0
          { entity_id := some "light.living_room", action := some "turn_on",
            brightness := some 80 }).effects :=
  ⟨⟨by decide, by decide⟩,
   (control_light_brightness env0 "light.living_room" 80).2.1 (by decide) (by decide),
   (control_light_brightness env0 "light.living_room" 80).1⟩

/-- Claim C8: a transcription payload whose text is empty, absent, or
exactly "[unk]" is answered with the fixed re-prompt published on the TTS
topic, with no LLM query and no Home-Assistant call (the handler's whole
effect list is the two log lines and the publish). -/
theorem empty_transcription_reprompt (env : Env) (entities : Categories) (payload : Payload)
    (h : payload.text.getD "" = "" ∨ payload.text.getD "" = "[unk]") :
    handle_voice_input env entities payload =
      ⟨[Effect.logInfo ("Processing voice input: \x27" ++ payload.text.getD "" ++ "\x27"),
        Effect.logInfo "Sending TTS response: I didn\x27t catch that. Could you please repeat?",
        Effect.publish TOPIC_TTS
          { text := "I didn\x27t catch that. Could you please repeat?", siteId := "default",
            sessionId := payload.sessionId.getD "default" }],
       some ()⟩ := by
  simp only [handle_voice_input, if_pos h, send_tts_response]
  rfl

/-- Witness for C8: a payload with no text field at all gets the
re-prompt. -/
theorem empty_transcription_reprompt_witness :
    handle_voice_input env0 get_default_entities
        { text := none, sessionId := some "s1", modelId := none } =
      ⟨[Effect.logInfo "Processing voice input: \x27\x27",
        Effect.logInfo "Sending TTS response: I didn\x27t catch that. Could you please repeat?",
        Effect.publish TOPIC_TTS
          { text := "I didn\x27t catch that. Could you please repeat?", siteId := "default",
            sessionId := "s1" }],
       some ()⟩ :=
  empty_transcription_reprompt env0 get_default_entities
    { text := none, sessionId := some "s1", modelId := none } (Or.inl rfl)

/-- `handle_voice_input` always returns normally: its `try/except` turns
every LLM-processing exception into the fallback message. -/
theorem handle_voice_input_result (env : Env) (entities : Categories) (payload : Payload) :
    (handle_voice_input env entities payload).result = some () := by
  by_cases hc : payload.text.getD "" = "" ∨ payload.text.getD "" = "[unk]"
  · simp [handle_voice_input, if_pos hc]
  · simp [handle_voice_input, if_neg hc]

/-- When the captured text is usable, the LLM query effect (carrying the
generated entity list and the user text) is among the handler's effects,
whatever the LLM then does. -/
theorem llm_query_in_voice_effects (env : Env) (entities : Categories) (payload : Payload)
    (h1 : payload.text.getD "" ≠ "") (h2 : payload.text.getD "" ≠ "[unk]") :
    Effect.llmQuery (generate_entity_list entities) (payload.text.getD "")
      ∈ (handle_voice_input env entities payload).effects := by
  have hcond : ¬(payload.text.getD "" = "" ∨ payload.text.getD "" = "[unk]") := by
    rintro (h | h)
    · exact h1 h
    · exact h2 h
  simp only [handle_voice_input, if_neg hcond, query_llm]
  cases hq : env.llm (payload.text.getD "") <;> simp [hq]

/-- Claim C1: the MQTT callback never lets an exception escape (payload
decode failures, LLM failures and Home-Assistant call failures are all
caught inside the handler chain), and a failing LLM query on a usable
transcription is answered by publishing the fixed fallback message on the
TTS topic. -/
theorem on_mqtt_message_no_raise_and_llm_fallback :
    (∀ (env : Env) (entities : Categories) (message : MqttMsg),
        (on_mqtt_message env entities message).result = some ()) ∧
    (∀ (env : Env) (entities : Categories) (payload : Payload),
        payload.text.getD "" ≠ "" → payload.text.getD "" ≠ "[unk]" →
        env.llm (payload.text.getD "") = none →
        Effect.publish TOPIC_TTS
          { text := "Sorry, I\x27m having trouble processing that request.",
            siteId := "default", sessionId := payload.sessionId.getD "default" }
          ∈ (handle_voice_input env entities payload).effects) := by
  constructor
  · intro env entities message
    rcases message with ⟨topic, payload⟩
    cases payload <;> rfl
  · intro env entities payload h1 h2 hllm
    have hcond : ¬(payload.text.getD "" = "" ∨ payload.text.getD "" = "[unk]") := by
      rintro (h | h)
      · exact h1 h
      · exact h2 h
    simp only [handle_voice_input, if_neg hcond, query_llm, hllm]
    simp [send_tts_response]

/-- Witness for C1: with an LLM that fails on every input, the fallback
message is published for a concrete transcription. -/
theorem on_mqtt_message_no_raise_and_llm_fallback_witness :
    Effect.publish TOPIC_TTS
        { text := "Sorry, I\x27m having trouble processing that request.",
          siteId := "default", sessionId := "default" }
      ∈ (handle_voice_input env0 get_default_entities
          { text := some "turn on the lights", sessionId := none, modelId := none }).effects :=
  on_mqtt_message_no_raise_and_llm_fallback.2 env0 get_default_entities
    { text := some "turn on the lights", sessionId := none, modelId := none }
    (by decide) (by decide) rfl

/-- Claim C4: an action request whose name is none of the six recognized
functions produces no Home-Assistant service call, only the dispatch log
and a warning, returns normally, and lets the loop continue with the
remaining actions. -/
theorem unknown_function_warn_and_skip (env : Env) (function_call : FuncCall)
    (h : ∀ s, function_call.name = some s → s ∉ known_function_names) :
    execute_ha_function env function_call =
      ⟨[Effect.logInfo ("Executing HA function: " ++ py_str_opt function_call.name),
        Effect.logWarn ("Unknown function: " ++ py_str_opt function_call.name)], some ()⟩ ∧
    (∀ domain service data,
        Effect.haCall domain service data ∉ (execute_ha_function env function_call).effects) ∧
    (∀ rest, execute_functions_loop env (function_call :: rest) =
        ⟨(execute_ha_function env function_call).effects
            ++ (execute_functions_loop env rest).effects,
         (execute_functions_loop env rest).result⟩) := by
  have h1 : ¬ function_call.name = some "light_control" :=
    fun hc => absurd (by decide : "light_control" ∈ known_function_names) (h _ hc)
  have h2 : ¬ function_call.name = some "switch_control" :=
    fun hc => absurd (by decide : "switch_control" ∈ known_function_names) (h _ hc)
  have h3 : ¬ function_call.name = some "climate_control" :=
    fun hc => absurd (by decide : "climate_control" ∈ known_function_names) (h _ hc)
  have h4 : ¬ function_call.name = some "create_reminder" :=
    fun hc => absurd (by decide : "create_reminder" ∈ known_function_names) (h _ hc)
  have h5 : ¬ function_call.name = some "automation_control" :=
    fun hc => absurd (by decide : "automation_control" ∈ known_function_names) (h _ hc)
  have h6 : ¬ function_call.name = some "script_control" :=
    fun hc => absurd (by decide : "script_control" ∈ known_function_names) (h _ hc)
  have hmain : execute_ha_function env function_call =
      ⟨[Effect.logInfo ("Executing HA function: " ++ py_str_opt function_call.name),
        Effect.logWarn ("Unknown function: " ++ py_str_opt function_call.name)], some ()⟩ := by
    simp only [execute_ha_function, if_neg h1, if_neg h2, if_neg h3, if_neg h4, if_neg h5,
      if_neg h6]
    rfl
  refine ⟨hmain, ?_, ?_⟩
  · intro domain service data
    rw [hmain]
    simp
  · intro rest
    simp only [execute_functions_loop, execute_ha_function_result]

/-- Witness for C4: the unrecognized name "media_control" only logs. -/
theorem unknown_function_warn_and_skip_witness :
    execute_ha_function env0 { name := some "media_control", parameters := {} } =
      ⟨[Effect.logInfo "Executing HA function: media_control",
        Effect.logWarn "Unknown function: media_control"], some ()⟩ :=
  (unknown_function_warn_and_skip env0 { name := some "media_control", parameters := {} }
    (fun s hs => by simp only [Option.some.injEq] at hs; subst hs; decide)).1

/-- Counterexample to C3 as stated: a transcription-topic message whose
captured text is empty is NOT forwarded to the LLM — the handler answers
with the re-prompt instead, and its effect list contains no LLM query. -/
theorem asr_empty_text_not_forwarded :
    (on_mqtt_message env0 get_default_entities msg_empty_text).effects =
      [Effect.logInfo "Received MQTT message on hermes/asr/textCaptured",
       Effect.logInfo "Processing voice input: \x27\x27",
       Effect.logInfo "Sending TTS response: I didn\x27t catch that. Could you please repeat?",
       Effect.publish TOPIC_TTS
         { text := "I didn\x27t catch that. Could you please repeat?", siteId := "default",
           sessionId := "default" }] ∧
    (on_mqtt_message env0 get_default_entities msg_empty_text).effects.all
      (fun e => !(Effect.isLlmQuery e)) = true := by
  constructor
  · rfl
  · rfl

/-- Claim C3 (amended): a wake-word-topic message only logs (the received
line and the wake-word line; no LLM query, no service call, no publish);
a transcription-topic message whose captured text is non-empty and not
"[unk]" has its text forwarded to the LLM; a message on any other topic
only logs the received line. -/
theorem topic_dispatch (env : Env) (entities : Categories) (message : MqttMsg)
    (payload : Payload) (hp : message.payload = some payload) :
    (message.topic = TOPIC_HOTWORD →
       (on_mqtt_message env entities message).effects =
         [Effect.logInfo ("Received MQTT message on " ++ message.topic),
          Effect.logInfo ("Wake word detected: " ++ payload.modelId.getD "unknown")]) ∧
    (message.topic = TOPIC_ASR → payload.text.getD "" ≠ "" → payload.text.getD "" ≠ "[unk]" →
       Effect.llmQuery (generate_entity_list entities) (payload.text.getD "")
         ∈ (on_mqtt_message env entities message).effects) ∧
    (message.topic ≠ TOPIC_ASR → message.topic ≠ TOPIC_HOTWORD →
       (on_mqtt_message env entities message).effects =
         [Effect.logInfo ("Received MQTT message on " ++ message.topic)]) := by
  refine ⟨?_, ?_, ?_⟩
  · intro ht
    have hne : ¬ message.topic = TOPIC_ASR := by
      rw [ht]
      decide
    simp only [on_mqtt_message, hp, if_neg hne, if_pos ht, handle_hotword, List.append_nil]
  · intro ht h1 h2
    have := llm_query_in_voice_effects env entities payload h1 h2
    simp only [on_mqtt_message, hp, if_pos ht, handle_voice_input_result, List.append_nil,
      List.mem_cons]
    exact Or.inr this
  · intro ha hh
    simp only [on_mqtt_message, hp, if_neg ha, if_neg hh, List.append_nil]

/-- Witness for the amended C3: a concrete wake-word message only logs. -/
theorem topic_dispatch_witness :
    (on_mqtt_message env0 get_default_entities
        { topic := TOPIC_HOTWORD,
          payload := some { text := none, sessionId := none, modelId := some "jarvis" } }).effects =
      [Effect.logInfo ("Received MQTT message on " ++ TOPIC_HOTWORD),
       Effect.logInfo ("Wake word detected: " ++ "jarvis")] :=
  (topic_dispatch env0 get_default_entities
    { topic := TOPIC_HOTWORD,
      payload := some { text := none, sessionId := none, modelId := some "jarvis" } }
    { text := none, sessionId := none, modelId := some "jarvis" } rfl).1 rfl

/-- Claim C2: an LLM reply that is brace-delimited and parses as JSON has
every entry of its "functions" list executed in order via
`execute_ha_function`, and the speech field (the raw text when absent) is
published only after all of them; any other reply is published verbatim
with no action executed. -/
theorem process_llm_response_dispatch (env : Env) (response_text session_id : String) :
    ((py_startswith response_text "\x7b" && py_endswith response_text "\x7d") = true →
      ∀ parsed, env.jsonLoads response_text = some parsed →
        process_llm_response env response_text session_id =
          ⟨((parsed.functions.map (fun f => (execute_ha_function env f).effects)).flatten)
            ++ (send_tts_response (parsed.speech.getD response_text) session_id).effects,
           some ()⟩) ∧
    ((py_startswith response_text "\x7b" && py_endswith response_text "\x7d") = false
        ∨ env.jsonLoads response_text = none →
      process_llm_response env response_text session_id
        = send_tts_response response_text session_id) := by
  constructor
  · intro hb parsed hjson
    simp only [process_llm_response, hb, if_true, hjson, execute_functions_loop_eq]
    rfl
  · rintro (hb | hjson)
    · simp only [process_llm_response, hb, Bool.false_eq_true, if_false]
    · by_cases hb : (py_startswith response_text "\x7b" && py_endswith response_text "\x7d") = true
      · simp only [process_llm_response, hb, if_true, hjson]
      · unfold process_llm_response
        rw [if_neg hb]

/-- Witness for C2: a concrete brace-delimited reply parsing to one light
action executes it and then publishes the speech field. -/
theorem process_llm_response_dispatch_witness :
    process_llm_response env1 "\x7b\x7d" "default" =
      ⟨((parsed0.functions.map (fun f => (execute_ha_function env1 f).effects)).flatten)
        ++ (send_tts_response (parsed0.speech.getD "\x7b\x7d") "default").effects,
       some ()⟩ :=
  (process_llm_response_dispatch env1 "\x7b\x7d" "default").1 (by decide) parsed0 rfl

/-- One `categorize_entities` step appends to the `lights` bucket exactly
when the entity domain selects it. -/
theorem categorize_step_lights (categories : Categories) (entity : RawEntity) :
    (categorize_step categories entity).lights =
      categories.lights ++ (if domain_of entity.entity_id = "light" then [mk_entity_info entity] else []) := by
  simp only [categorize_step]
  split_ifs <;> simp_all


/-- One `categorize_entities` step appends to the `switches` bucket exactly
when the entity domain selects it. -/
theorem categorize_step_switches (categories : Categories) (entity : RawEntity) :
    (categorize_step categories entity).switches =
      categories.switches ++ (if domain_of entity.entity_id = "switch" then [mk_entity_info entity] else []) := by
  simp only [categorize_step]
  split_ifs <;> simp_all


/-- One `categorize_entities` step appends to the `climate` bucket exactly
when the entity domain selects it. -/
theorem categorize_step_climate (categories : Categories) (entity : RawEntity) :
    (categorize_step categories entity).climate =
      categories.climate ++ (if domain_of entity.entity_id = "climate" then [mk_entity_info entity] else []) := by
  simp only [categorize_step]
  split_ifs <;> simp_all


/-- One `categorize_entities` step appends to the `fans` bucket exactly
when the entity domain selects it. -/
theorem categorize_step_fans (categories : Categories) (entity : RawEntity) :
    (categorize_step categories entity).fans =
      categories.fans ++ (if domain_of entity.entity_id = "fan" then [mk_entity_info entity] else []) := by
  simp only [categorize_step]
  split_ifs <;> simp_all


/-- One `categorize_entities` step appends to the `automations` bucket exactly
when the entity domain selects it. -/
theorem categorize_step_automations (categories : Categories) (entity : RawEntity) :
    (categorize_step categories entity).automations =
      categories.automations ++ (if domain_of entity.entity_id = "automation" then [mk_entity_info entity] else []) := by
  simp only [categorize_step]
  split_ifs <;> simp_all


/-- One `categorize_entities` step appends to the `scripts` bucket exactly
when the entity domain selects it. -/
theorem categorize_step_scripts (categories : Categories) (entity : RawEntity) :
    (categorize_step categories entity).scripts =
      categories.scripts ++ (if domain_of entity.entity_id = "script" then [mk_entity_info entity] else []) := by
  simp only [categorize_step]
  split_ifs <;> simp_all


/-- One `categorize_entities` step appends to the `media_players` bucket exactly
when the entity domain selects it. -/
theorem categorize_step_media_players (categories : Categories) (entity : RawEntity) :
    (categorize_step categories entity).media_players =
      categories.media_players ++ (if domain_of entity.entity_id = "media_player" then [mk_entity_info entity] else []) := by
  simp only [categorize_step]
  split_ifs <;> simp_all


/-- One `categorize_entities` step appends to the `covers` bucket exactly
when the entity domain selects it. -/
theorem categorize_step_covers (categories : Categories) (entity : RawEntity) :
    (categorize_step categories entity).covers =
      categories.covers ++ (if domain_of entity.entity_id = "cover" then [mk_entity_info entity] else []) := by
  simp only [categorize_step]
  split_ifs <;> simp_all


/-- One `categorize_entities` step appends to the `sensors` bucket exactly
when the entity domain selects it. -/
theorem categorize_step_sensors (categories : Categories) (entity : RawEntity) :
    (categorize_step categories entity).sensors =
      categories.sensors ++ (if domain_of entity.entity_id = "sensor" ∨ domain_of entity.entity_id = "binary_sensor" then [mk_entity_info entity] else []) := by
  simp only [categorize_step]
  split_ifs <;> simp_all


/-- One `categorize_entities` step appends to the `other` bucket exactly
when no recognized domain matches. -/
theorem categorize_step_other (categories : Categories) (entity : RawEntity) :
    (categorize_step categories entity).other =
      categories.other ++
        (if categorized_domain (domain_of entity.entity_id) then []
         else [mk_entity_info entity]) := by
  simp only [categorize_step, categorized_domain]
  split_ifs <;> simp_all


/-- Folding the categorize step collects, in input order, exactly the
entities whose domain selects the `lights` bucket. -/
theorem categorize_foldl_lights (entities : List RawEntity) :
    ∀ acc : Categories,
      (entities.foldl categorize_step acc).lights =
        acc.lights ++ (entities.filter (fun e => decide (domain_of e.entity_id = "light"))).map mk_entity_info := by
  induction entities with
  | nil => intro acc; simp
  | cons e es ih =>
    intro acc
    rw [List.foldl_cons, ih, categorize_step_lights, List.filter_cons]
    by_cases hd : domain_of e.entity_id = "light"
    · simp [hd]
    · simp [hd]


/-- Folding the categorize step collects, in input order, exactly the
entities whose domain selects the `switches` bucket. -/
theorem categorize_foldl_switches (entities : List RawEntity) :
    ∀ acc : Categories,
      (entities.foldl categorize_step acc).switches =
        acc.switches ++ (entities.filter (fun e => decide (domain_of e.entity_id = "switch"))).map mk_entity_info := by
  induction entities with
  | nil => intro acc; simp
  | cons e es ih =>
    intro acc
    rw [List.foldl_cons, ih, categorize_step_switches, List.filter_cons]
    by_cases hd : domain_of e.entity_id = "switch"
    · simp [hd]
    · simp [hd]


/-- Folding the categorize step collects, in input order, exactly the
entities whose domain selects the `climate` bucket. -/
theorem categorize_foldl_climate (entities : List RawEntity) :
    ∀ acc : Categories,
      (entities.foldl categorize_step acc).climate =
        acc.climate ++ (entities.filter (fun e => decide (domain_of e.entity_id = "climate"))).map mk_entity_info := by
  induction entities with
  | nil => intro acc; simp
  | cons e es ih =>
    intro acc
    rw [List.foldl_cons, ih, categorize_step_climate, List.filter_cons]
    by_cases hd : domain_of e.entity_id = "climate"
    · simp [hd]
    · simp [hd]


/-- Folding the categorize step collects, in input order, exactly the
entities whose domain selects the `fans` bucket. -/
theorem categorize_foldl_fans (entities : List RawEntity) :
    ∀ acc : Categories,
      (entities.foldl categorize_step acc).fans =
        acc.fans ++ (entities.filter (fun e => decide (domain_of e.entity_id = "fan"))).map mk_entity_info := by
  induction entities with
  | nil => intro acc; simp
  | cons e es ih =>
    intro acc
    rw [List.foldl_cons, ih, categorize_step_fans, List.filter_cons]
    by_cases hd : domain_of e.entity_id = "fan"
    · simp [hd]
    · simp [hd]


/-- Folding the categorize step collects, in input order, exactly the
entities whose domain selects the `automations` bucket. -/
theorem categorize_foldl_automations (entities : List RawEntity) :
    ∀ acc : Categories,
      (entities.foldl categorize_step acc).automations =
        acc.automations ++ (entities.filter (fun e => decide (domain_of e.entity_id = "automation"))).map mk_entity_info := by
  induction entities with
  | nil => intro acc; simp
  | cons e es ih =>
    intro acc
    rw [List.foldl_cons, ih, categorize_step_automations, List.filter_cons]
    by_cases hd : domain_of e.entity_id = "automation"
    · simp [hd]
    · simp [hd]


/-- Folding the categorize step collects, in input order, exactly the
entities whose domain selects the `scripts` bucket. -/
theorem categorize_foldl_scripts (entities : List RawEntity) :
    ∀ acc : Categories,
      (entities.foldl categorize_step acc).scripts =
        acc.scripts ++ (entities.filter (fun e => decide (domain_of e.entity_id = "script"))).map mk_entity_info := by
  induction entities with
  | nil => intro acc; simp
  | cons e es ih =>
    intro acc
    rw [List.foldl_cons, ih, categorize_step_scripts, List.filter_cons]
    by_cases hd : domain_of e.entity_id = "script"
    · simp [hd]
    · simp [hd]


/-- Folding the categorize step collects, in input order, exactly the
entities whose domain selects the `media_players` bucket. -/
theorem categorize_foldl_media_players (entities : List RawEntity) :
    ∀ acc : Categories,
      (entities.foldl categorize_step acc).media_players =
        acc.media_players ++ (entities.filter (fun e => decide (domain_of e.entity_id = "media_player"))).map mk_entity_info := by
  induction entities with
  | nil => intro acc; simp
  | cons e es ih =>
    intro acc
    rw [List.foldl_cons, ih, categorize_step_media_players, List.filter_cons]
    by_cases hd : domain_of e.entity_id = "media_player"
    · simp [hd]
    · simp [hd]


/-- Folding the categorize step collects, in input order, exactly the
entities whose domain selects the `covers` bucket. -/
theorem categorize_foldl_covers (entities : List RawEntity) :
    ∀ acc : Categories,
      (entities.foldl categorize_step acc).covers =
        acc.covers ++ (entities.filter (fun e => decide (domain_of e.entity_id = "cover"))).map mk_entity_info := by
  induction entities with
  | nil => intro acc; simp
  | cons e es ih =>
    intro acc
    rw [List.foldl_cons, ih, categorize_step_covers, List.filter_cons]
    by_cases hd : domain_of e.entity_id = "cover"
    · simp [hd]
    · simp [hd]


/-- Folding the categorize step collects, in input order, exactly the
entities whose domain selects the `sensors` bucket. -/
theorem categorize_foldl_sensors (entities : List RawEntity) :
    ∀ acc : Categories,
      (entities.foldl categorize_step acc).sensors =
        acc.sensors ++ (entities.filter (fun e => decide (domain_of e.entity_id = "sensor" ∨ domain_of e.entity_id = "binary_sensor"))).map mk_entity_info := by
  induction entities with
  | nil => intro acc; simp
  | cons e es ih =>
    intro acc
    rw [List.foldl_cons, ih, categorize_step_sensors, List.filter_cons]
    by_cases hd : domain_of e.entity_id = "sensor" ∨ domain_of e.entity_id = "binary_sensor"
    · simp [hd]
    · simp [hd]


/-- Folding the categorize step collects in the `other` bucket, in input
order, exactly the entities of unrecognized domain. -/
theorem categorize_foldl_other (entities : List RawEntity) :
    ∀ acc : Categories,
      (entities.foldl categorize_step acc).other =
        acc.other ++ (entities.filter
          (fun e => decide (¬ categorized_domain (domain_of e.entity_id)))).map mk_entity_info := by
  induction entities with
  | nil => intro acc; simp
  | cons e es ih =>
    intro acc
    rw [List.foldl_cons, ih, categorize_step_other, List.filter_cons]
    by_cases hd : categorized_domain (domain_of e.entity_id)
    · simp [hd]
    · simp [hd]


/-- Each categorize step grows exactly one bucket by one entity. -/
theorem categorize_step_total (categories : Categories) (entity : RawEntity) :
    cat_total (categorize_step categories entity) = cat_total categories + 1 := by
  simp only [categorize_step, cat_total]
  split_ifs <;> simp [List.length_append] <;> omega

/-- Folding the categorize step grows the bucket total by the input
length. -/
theorem categorize_foldl_total (entities : List RawEntity) :
    ∀ acc : Categories,
      cat_total (entities.foldl categorize_step acc) = cat_total acc + entities.length := by
  induction entities with
  | nil => intro acc; simp
  | cons e es ih =>
    intro acc
    rw [List.foldl_cons, ih, categorize_step_total, List.length_cons]
    omega

/-- Claim C5: `categorize_entities` partitions its input by the domain
prefix of each `entity_id` (the text before the first dot): each of the
ten buckets holds, in input order, exactly the entities whose domain
selects it, and the bucket sizes sum to the input length, so every entity
lands in exactly one bucket. -/
theorem categorize_entities_partition (entities : List RawEntity) :
    (categorize_entities entities).lights =
      (entities.filter (fun e => decide (domain_of e.entity_id = "light"))).map mk_entity_info ∧
    (categorize_entities entities).switches =
      (entities.filter (fun e => decide (domain_of e.entity_id = "switch"))).map mk_entity_info ∧
    (categorize_entities entities).climate =
      (entities.filter (fun e => decide (domain_of e.entity_id = "climate"))).map mk_entity_info ∧
    (categorize_entities entities).fans =
      (entities.filter (fun e => decide (domain_of e.entity_id = "fan"))).map mk_entity_info ∧
    (categorize_entities entities).automations =
      (entities.filter (fun e => decide (domain_of e.entity_id = "automation"))).map mk_entity_info ∧
    (categorize_entities entities).scripts =
      (entities.filter (fun e => decide (domain_of e.entity_id = "script"))).map mk_entity_info ∧
    (categorize_entities entities).media_players =
      (entities.filter (fun e => decide (domain_of e.entity_id = "media_player"))).map mk_entity_info ∧
    (categorize_entities entities).covers =
      (entities.filter (fun e => decide (domain_of e.entity_id = "cover"))).map mk_entity_info ∧
    (categorize_entities entities).sensors =
      (entities.filter (fun e => decide (domain_of e.entity_id = "sensor"
        ∨ domain_of e.entity_id = "binary_sensor"))).map mk_entity_info ∧
    (categorize_entities entities).other =
      (entities.filter
        (fun e => decide (¬ categorized_domain (domain_of e.entity_id)))).map mk_entity_info ∧
    cat_total (categorize_entities entities) = entities.length := by
  unfold categorize_entities
  refine ⟨?_, ?_, ?_, ?_, ?_, ?_, ?_, ?_, ?_, ?_, ?_⟩
  · simp [categorize_foldl_lights]
  · simp [categorize_foldl_switches]
  · simp [categorize_foldl_climate]
  · simp [categorize_foldl_fans]
  · simp [categorize_foldl_automations]
  · simp [categorize_foldl_scripts]
  · simp [categorize_foldl_media_players]
  · simp [categorize_foldl_covers]
  · simp [categorize_foldl_sensors]
  · simp [categorize_foldl_other]
  · rw [categorize_foldl_total]
    simp [cat_total]

/-- Claim C7: whenever entity discovery fails — a missing (or empty)
`HA_HOST` or `HA_TOKEN`, a raised HTTP request, or an empty states result
— `main` returns without writing `ha_entities.json` or
`ha_entities.txt`: no write effect occurs. -/
theorem discovery_failure_no_writes (env : DiscEnv)
    (h : env.ha_host.getD "" = "" ∨ env.ha_token.getD "" = "" ∨ env.states = none
          ∨ env.states = some []) :
    ∀ e ∈ discovery_main env, DiscEffect.isWrite e = false := by
  intro e he
  by_cases hc : env.ha_host.getD "" = "" ∨ env.ha_token.getD "" = ""
  · simp [discovery_main, discover_ha_entities, if_pos hc] at he
    rcases he with rfl | rfl
    · rfl
    · rfl
  · have hs : env.states = none ∨ env.states = some [] := by
      rcases h with h | h | h | h
      · exact absurd (Or.inl h) hc
      · exact absurd (Or.inr h) hc
      · exact Or.inl h
      · exact Or.inr h
    rcases hs with hs | hs
    · simp [discovery_main, discover_ha_entities, if_neg hc, hs] at he
      rcases he with rfl | rfl | rfl
      · rfl
      · rfl
      · rfl
    · simp [discovery_main, discover_ha_entities, if_neg hc, hs] at he
      rcases he with rfl | rfl
      · rfl
      · rfl

/-- Witness for C7: with both environment variables unset, the run
performs no file write. -/
theorem discovery_failure_no_writes_witness :
    (discovery_main denv0).all (fun e => !(DiscEffect.isWrite e)) = true := by
  rw [List.all_eq_true]
  intro e he
  have hw := discovery_failure_no_writes denv0 (Or.inl rfl) e he
  simp [hw]
